import Mathlib

/-!
# Verification of the `pava` JVM class-file decoder (`jvmparser.py`)

A shallow embedding of the decoder in `src/jvmparser.py` as executable Lean
functions over byte lists, together with theorems settling the frozen claims
about the specification.

Byte streams are `List Nat` (each element one byte of the input, consumed from
the front, mirroring the sequential file/BytesIO cursor).  Fallible Python code
(raised exceptions) is embedded as `Except Err`.

The helper modules `utils.py` and `jvmconsts.py` are not part of the source
tree given under `src/`; the definitions taken from them are modelled from the
spec and carry a doc comment saying so.
-/

namespace Pava

/-- The errors the decoder can raise.  Each constructor corresponds to one
Python exception site in `jvmparser.py` (or, for `truncatedInput`, to the
spec-modelled primitive reader).  Messages are encoded in the constructor
names; in particular `notImplementedNoInterfaces` stands for
`NotImplementedError("We do not support interfaces")` — the literal Python
message (with an apostrophe) raised by BOTH `parse_interfaces` (line 216) and
`parse_fields` (line 222, a copy-paste of the interfaces message). -/
inductive Err where
  /-- Modelled from the spec: the primitive reader fails when fewer bytes
  remain than requested (`utils.py` is not under `src/`). -/
  | truncatedInput
  /-- `RuntimeError("Not a Java file: invalid magic number")`, line 229. -/
  | invalidMagic
  /-- Both `NotImplementedError` sites of `parse_constant_pool`
  (lines 180 and 208), each carrying the offending tag byte. -/
  | unsupportedConstantTag (tag : Nat)
  /-- `ValueError` raised by `AttributeInfoName(attr_name)` (line 68) when the
  resolved attribute name is outside the five known names. -/
  | valueError
  /-- `NotImplementedError("We do not support interfaces")` — raised by
  `parse_interfaces` and (copy-paste) by `parse_fields`. -/
  | notImplementedNoInterfaces
  /-- `NotImplementedError("We do not support exception tables")`, line 153. -/
  | notImplementedNoExceptionTables
  /-- `AssertionError("Constant pool index must be positive")`, line 34. -/
  | assertPositiveCpIndex
  /-- `AssertionError("Bootstrap method index must be non-negative")` — both
  asserts of `from_bsm` (lines 38 and 39) carry this same message. -/
  | assertNonNegativeBsmIndex
  /-- `RuntimeError("Bootstrap method not found")`, line 43. -/
  | bsmNotFound
  /-- Python `IndexError`: list subscript out of range. -/
  | indexError
  /-- Python `KeyError`: dict subscript on a missing key. -/
  | keyError
  /-- Python `AttributeError`: `.decode` on a non-bytes value. -/
  | attributeError
  /-- Modelling artifact: recursion fuel exhausted.  The Python recursion is
  bounded because every nested attribute list lives in a strictly smaller
  payload buffer; fuel larger than the stream length is never exhausted. -/
  | outOfFuel
deriving Repr, DecidableEq

@[simp] theorem except_bind_ok {α β : Type} (a : α) (f : α → Except Err β) :
    (Except.ok a : Except Err α) >>= f = f a := rfl

@[simp] theorem except_bind_err {α β : Type} (e : Err) (f : α → Except Err β) :
    (Except.error e : Except Err α) >>= f = (.error e : Except Err β) := rfl

/-- Modelled from the spec: `utils.parse_i1` — an unsigned 8-bit read that
"fails with `TruncatedInput` when fewer bytes remain than requested"
(`utils.py` is not under `src/`). -/
def parse_i1 : List Nat → Except Err (Nat × List Nat)
  | b :: rest => .ok (b, rest)
  | [] => .error .truncatedInput

/-- Modelled from the spec: `utils.parse_i2` — an unsigned 16-bit big-endian
read, failing with `TruncatedInput` on a short stream. -/
def parse_i2 : List Nat → Except Err (Nat × List Nat)
  | a :: b :: rest => .ok (256 * a + b, rest)
  | _ => .error .truncatedInput

/-- Modelled from the spec: `utils.parse_i4` — an unsigned 32-bit big-endian
read, failing with `TruncatedInput` on a short stream. -/
def parse_i4 : List Nat → Except Err (Nat × List Nat)
  | a :: b :: c :: d :: rest => .ok (256 * (256 * (256 * a + b) + c) + d, rest)
  | _ => .error .truncatedInput

/-- Modelled from the spec: `utils.parse_f4` — a 32-bit IEEE-754 float read.
The float is kept as its raw 32 bits (no claim inspects the numeric value of a
Float constant, so floating-point arithmetic is never modelled). -/
def parse_f4 : List Nat → Except Err (Nat × List Nat)
  | a :: b :: c :: d :: rest => .ok (256 * (256 * (256 * a + b) + c) + d, rest)
  | _ => .error .truncatedInput

/-- Python `f.read(n)` on a stream/`BytesIO` (used directly at lines 61, 150
and 191): returns *up to* `n` bytes — a short stream yields a short result,
never an error. -/
def readRaw (n : Nat) (s : List Nat) : List Nat × List Nat :=
  (s.take n, s.drop n)

/-- Big-endian 2-byte encoding, used to state round-trip theorems. -/
def enc2 (n : Nat) : List Nat := [n / 256, n % 256]

/-- Big-endian 4-byte encoding, used to state round-trip theorems. -/
def enc4 (n : Nat) : List Nat :=
  [n / 2 ^ 24, n / 2 ^ 16 % 256, n / 256 % 256, n % 256]

@[simp] theorem parse_i1_cons (b : Nat) (r : List Nat) :
    parse_i1 (b :: r) = .ok (b, r) := rfl

@[simp] theorem parse_i2_enc2 (n : Nat) (r : List Nat) :
    parse_i2 (enc2 n ++ r) = .ok (n, r) := by
  simp only [enc2, List.cons_append, List.nil_append, parse_i2, Except.ok.injEq,
    Prod.mk.injEq, and_true]
  omega

@[simp] theorem parse_i4_enc4 (n : Nat) (r : List Nat) :
    parse_i4 (enc4 n ++ r) = .ok (n, r) := by
  simp only [enc4, List.cons_append, List.nil_append, parse_i4, Except.ok.injEq,
    Prod.mk.injEq, and_true]
  omega

@[simp] theorem parse_f4_enc4 (n : Nat) (r : List Nat) :
    parse_f4 (enc4 n ++ r) = .ok (n, r) := by
  simp only [enc4, List.cons_append, List.nil_append, parse_f4, Except.ok.injEq,
    Prod.mk.injEq, and_true]
  omega

/-- A constant-pool entry: the tagged dict `cp_info` built by
`parse_constant_pool` (lines 172–211), one variant per supported tag, each
carrying exactly the dict fields the Python code stores for that tag. -/
inductive CpInfo where
  | methodref (class_index name_and_type_index : Nat)
  | fieldref (class_index name_and_type_index : Nat)
  | classref (name_index : Nat)
  | nameAndType (name_index descriptor_index : Nat)
  | utf8 (bytes : List Nat)
  | string (string_index : Nat)
  | invokeDynamic (bootstrap_method_attr_index name_and_type_index : Nat)
  | methodHandle (reference_kind reference_index : Nat)
  /-- `CONSTANT_Float`: the dict key `bytes` holds the value of `parse_f4`,
  kept here as the raw 32 bits. -/
  | floatc (bits : Nat)
  /-- `CONSTANT_Integer`: the dict key `bytes` holds the value of `parse_i4`. -/
  | integerc (value : Nat)
deriving Repr, DecidableEq

/-- The dict lookup `entry['name_index']` (lines 28 and 31): present on Class
and NameAndType entries, a `KeyError` otherwise. -/
def CpInfo.nameIndexKey : CpInfo → Except Err Nat
  | .classref ni => .ok ni
  | .nameAndType ni _ => .ok ni
  | _ => .error .keyError

/-- The access `entry['bytes'].decode('utf-8')` (line 28): Utf8 entries hold a
byte string — decoding re-encodes to the same bytes, so the text is kept as
its byte list (every byte sequence a claim touches is ASCII, so the
`UnicodeDecodeError` of malformed input is not modelled); Integer and Float
entries hold a number under the same key, on which `.decode` raises
`AttributeError`; all other entries lack the key (`KeyError`). -/
def CpInfo.decodeBytesKey : CpInfo → Except Err (List Nat)
  | .utf8 bs => .ok bs
  | .floatc _ => .error .attributeError
  | .integerc _ => .error .attributeError
  | _ => .error .keyError

/-- The lookup `entry['bytes']` used for an attribute name (line 58), followed
by the `AttributeInfoName(...)` conversion that is the only consumer of its
result: Utf8 entries yield their byte string; Integer and Float entries hold a
number under the `bytes` key, which the enum conversion then rejects with
`ValueError`; other entries lack the key (`KeyError`). -/
def CpInfo.attrNameBytes : CpInfo → Except Err (List Nat)
  | .utf8 bs => .ok bs
  | .floatc _ => .error .valueError
  | .integerc _ => .error .valueError
  | _ => .error .keyError

/-- Python list subscription `l[i]` with an `int` index: a negative index
counts from the end (`l[-1]` is the last element); an index outside
`[-len(l), len(l))` raises `IndexError`. -/
def pyGet {α : Type} (l : List α) (i : Int) : Except Err α :=
  let j : Int := if i < 0 then i + l.length else i
  if 0 ≤ j then
    match l.get? j.toNat with
    | some a => .ok a
    | none => .error .indexError
  else .error .indexError

/-- Which tag bytes the `if/elif` chain of `parse_constant_pool` handles.
Modelled from the spec for the numeric values: `jvmconsts.Constant` is not
under `src/`, so the standard JVM class-format tag numbers are used for the
ten variants the spec enumerates. -/
def supportedTag (tag : Nat) : Bool :=
  tag = 10 ∨ tag = 9 ∨ tag = 7 ∨ tag = 12 ∨ tag = 1 ∨
  tag = 8 ∨ tag = 18 ∨ tag = 15 ∨ tag = 4 ∨ tag = 3

/-- One iteration of the loop body of `parse_constant_pool` (lines 175–210):
read the tag byte and dispatch on it.  The two `NotImplementedError` sites —
the `except ValueError` of the enum conversion (line 180) and the final `else`
(line 208) — both abort the decode carrying the tag byte; since the exact
member list of the missing `jvmconsts.Constant` enum only decides which of the
two fires, they are embedded as the single error `unsupportedConstantTag`. -/
def parse_cp_entry (s : List Nat) : Except Err (CpInfo × List Nat) := do
  let (tag, s) ← parse_i1 s
  if tag = 10 then do       -- CONSTANT_Methodref
    let (ci, s) ← parse_i2 s
    let (nti, s) ← parse_i2 s
    .ok (.methodref ci nti, s)
  else if tag = 7 then do   -- CONSTANT_Class
    let (ni, s) ← parse_i2 s
    .ok (.classref ni, s)
  else if tag = 12 then do  -- CONSTANT_NameAndType
    let (ni, s) ← parse_i2 s
    let (di, s) ← parse_i2 s
    .ok (.nameAndType ni di, s)
  else if tag = 1 then do   -- CONSTANT_Utf8: a length-prefixed raw read
    let (len, s) ← parse_i2 s
    let (bs, s) := readRaw len s
    .ok (.utf8 bs, s)
  else if tag = 9 then do   -- CONSTANT_Fieldref
    let (ci, s) ← parse_i2 s
    let (nti, s) ← parse_i2 s
    .ok (.fieldref ci nti, s)
  else if tag = 8 then do   -- CONSTANT_String
    let (si, s) ← parse_i2 s
    .ok (.string si, s)
  else if tag = 18 then do  -- CONSTANT_InvokeDynamic
    let (bi, s) ← parse_i2 s
    let (nti, s) ← parse_i2 s
    .ok (.invokeDynamic bi nti, s)
  else if tag = 15 then do  -- CONSTANT_MethodHandle
    let (rk, s) ← parse_i1 s
    let (ri, s) ← parse_i2 s
    .ok (.methodHandle rk ri, s)
  else if tag = 4 then do   -- CONSTANT_Float
    let (bits, s) ← parse_f4 s
    .ok (.floatc bits, s)
  else if tag = 3 then do   -- CONSTANT_Integer
    let (v, s) ← parse_i4 s
    .ok (.integerc v, s)
  else
    .error (.unsupportedConstantTag tag)

/-- Run a record parser a given number of times, collecting the results in
order — the shape of every `for i in range(n)` parse loop in the source. -/
def parseCount {α : Type} (p : List Nat → Except Err (α × List Nat)) :
    Nat → List Nat → Except Err (List α × List Nat)
  | 0, s => .ok ([], s)
  | n + 1, s => do
    let (a, s) ← p s
    let (as, s') ← parseCount p n s
    .ok (a :: as, s')

/-- `parse_constant_pool(f, constant_pool_count)` (lines 172–211): the loop
runs `constant_pool_count - 1` times (for a Python count of 0 the loop body
never runs, matching `range(-1)` being empty and Nat subtraction). -/
def parse_constant_pool (count : Nat) (s : List Nat) : Except Err (List CpInfo × List Nat) :=
  parseCount parse_cp_entry (count - 1) s

/-- The byte encoding of one constant-pool entry, inverse of
`parse_cp_entry`; used to state the round-trip theorems. -/
def encodeCp : CpInfo → List Nat
  | .methodref ci nti => 10 :: (enc2 ci ++ enc2 nti)
  | .fieldref ci nti => 9 :: (enc2 ci ++ enc2 nti)
  | .classref ni => 7 :: enc2 ni
  | .nameAndType ni di => 12 :: (enc2 ni ++ enc2 di)
  | .utf8 bs => 1 :: (enc2 bs.length ++ bs)
  | .string si => 8 :: enc2 si
  | .invokeDynamic bi nti => 18 :: (enc2 bi ++ enc2 nti)
  | .methodHandle rk ri => 15 :: (rk :: enc2 ri)
  | .floatc bits => 4 :: enc4 bits
  | .integerc v => 3 :: enc4 v

/-- The byte encoding of a sequence of constant-pool entries in order. -/
def encodeCpList (es : List CpInfo) : List Nat :=
  (es.map encodeCp).flatten

theorem parse_cp_entry_encode (e : CpInfo) (r : List Nat) :
    parse_cp_entry (encodeCp e ++ r) = .ok (e, r) := by
  cases e <;>
    simp [parse_cp_entry, encodeCp, readRaw, List.append_assoc,
      List.take_left, List.drop_left]

theorem parseCount_length {α : Type} (p : List Nat → Except Err (α × List Nat)) :
    ∀ (n : Nat) (s : List Nat) (as : List α) (r : List Nat),
      parseCount p n s = .ok (as, r) → as.length = n := by
  intro n
  induction n with
  | zero => intro s as r h; simp [parseCount] at h; simp [h.1]
  | succ n ih =>
    intro s as r h
    simp only [parseCount] at h
    cases hp : p s with
    | error e => rw [hp] at h; simp at h
    | ok v =>
      rw [hp] at h
      obtain ⟨a, s₁⟩ := v
      simp only [except_bind_ok] at h
      cases hq : parseCount p n s₁ with
      | error e => rw [hq] at h; simp at h
      | ok w =>
        rw [hq] at h
        obtain ⟨as', r'⟩ := w
        simp only [except_bind_ok, Except.ok.injEq, Prod.mk.injEq] at h
        obtain ⟨h1, h2⟩ := h
        subst h1
        simp [ih _ _ _ hq]

/-- `parse_flags(value, flags)` (lines 45–46): the list comprehension
`[name for (name, mask) in flags if (value & mask) != 0]`. -/
def parse_flags (value : Nat) (flags : List (String × Nat)) : List String :=
  (flags.filter (fun p => value &&& p.2 != 0)).map Prod.fst

/-- Modelled from the spec: `jvmconsts.CLASS_ACCESS_FLAGS` is not under
`src/`; per the spec there is one ordered class-level table, taken here as the
standard JVM class access-flag table.  No claim depends on its contents. -/
def CLASS_ACCESS_FLAGS : List (String × Nat) :=
  [("ACC_PUBLIC", 0x0001), ("ACC_FINAL", 0x0010), ("ACC_SUPER", 0x0020),
   ("ACC_INTERFACE", 0x0200), ("ACC_ABSTRACT", 0x0400),
   ("ACC_SYNTHETIC", 0x1000), ("ACC_ANNOTATION", 0x2000), ("ACC_ENUM", 0x4000)]

/-- Modelled from the spec: `jvmconsts.METHOD_ACCESS_FLAGS` is not under
`src/`; per the spec there is one ordered method-level table, taken here as
the standard JVM method access-flag table.  No claim depends on its
contents. -/
def METHOD_ACCESS_FLAGS : List (String × Nat) :=
  [("ACC_PUBLIC", 0x0001), ("ACC_PRIVATE", 0x0002), ("ACC_PROTECTED", 0x0004),
   ("ACC_STATIC", 0x0008), ("ACC_FINAL", 0x0010), ("ACC_SYNCHRONIZED", 0x0020),
   ("ACC_BRIDGE", 0x0040), ("ACC_VARARGS", 0x0080), ("ACC_NATIVE", 0x0100),
   ("ACC_ABSTRACT", 0x0400), ("ACC_STRICT", 0x0800), ("ACC_SYNTHETIC", 0x1000)]

/-- One bootstrap method record of a `BootstrapMethods` attribute
(lines 87–94): the dict `method`. -/
structure BootstrapMethod where
  bootstrap_method_ref : Nat
  num_bootstrap_arguments : Nat
  bootstrap_arguments : List Nat
deriving Repr, DecidableEq

/-- One record of an `InnerClasses` attribute (lines 107–113): the dict
`cls`. -/
structure InnerClassRec where
  inner_class_info_index : Nat
  outer_class_info_index : Nat
  inner_name_index : Nat
  inner_class_access_flags : Nat
deriving Repr, DecidableEq

/-- One record of a `LineNumberTable` attribute (lines 121–125). -/
structure LineEntry where
  start_pc : Nat
  line_number : Nat
deriving Repr, DecidableEq

mutual
/-- The parsed payload stored under `attribute['info']` — one variant per
sub-parser of `parse_attribute_info` (lines 66–157), carrying the dict fields
that sub-parser stores.  The `code` variant is the dict built by
`parse_attribute_info_Code`, whose `attributes` field holds a nested attribute
list. -/
inductive AttrInfo : Type where
  | bootstrapMethods (num_bootstrap_methods : Nat)
      (bootstrap_methods : List BootstrapMethod) : AttrInfo
  | sourceFile (sourcefile_index : Nat) : AttrInfo
  | innerClasses (number_of_classes : Nat) (classes : List InnerClassRec) : AttrInfo
  | code (max_stack max_locals : Nat) (code : List Nat)
      (attributes : List Attribute) : AttrInfo
  | lineNumberTable (line_number_table_length : Nat)
      (line_number_table : List LineEntry) : AttrInfo

/-- One attribute dict built by `parse_attributes` (lines 56–63):
`attribute_name_index`, the resolved `_name` bytes, and the parsed `info`. -/
inductive Attribute : Type where
  | mk (attribute_name_index : Nat) (name : List Nat) (info : AttrInfo) : Attribute
end

/-- The `attribute_name_index` field of an attribute dict. -/
def Attribute.attribute_name_index : Attribute → Nat
  | .mk i _ _ => i

/-- The resolved `_name` byte string of an attribute dict. -/
def Attribute.name : Attribute → List Nat
  | .mk _ n _ => n

/-- The parsed `info` payload of an attribute dict. -/
def Attribute.info : Attribute → AttrInfo
  | .mk _ _ i => i

/-- One method dict of the `methods` loop of `parse_class_file`
(lines 250–262). -/
structure Method where
  access_flags : List String
  name_index : Nat
  descriptor_index : Nat
  attributes : List Attribute

/-- The `JVMClass` dataclass (lines 10–18).  `methods` and `attributes` are
`None` until their assembly phase completes, hence `Option`. -/
structure JVMClass where
  version : Nat × Nat
  constant_pool : List CpInfo
  methods : Option (List Method)
  attributes : Option (List Attribute)
  access_flags : List String
  this_class : Nat
  super_class : Nat

/-- The byte string `b'BootstrapMethods'` (all names are ASCII, so the UTF-8
bytes are the character codes). -/
def bytesOf (s : String) : List Nat := s.data.map Char.toNat

/-- `from_cp(clazz, index)` (lines 33–35): assert the index is positive, then
subscript the pool at `index - 1` (a plain non-negative subscript, since the
assert has ruled out the negative range). -/
def from_cp (clazz : JVMClass) (index : Int) : Except Err CpInfo :=
  if 0 < index then
    match clazz.constant_pool.get? (index.toNat - 1) with
    | some e => .ok e
    | none => .error .indexError
  else .error .assertPositiveCpIndex

/-- `get_name_of_class(clazz, class_index)` (lines 27–28): the unchecked chain
`constant_pool[class_index - 1]['name_index']`, then
`constant_pool[name_index - 1]['bytes'].decode('utf-8')`.  Both subscripts use
plain Python indexing, so a non-positive `class_index` wraps around from the
end of the pool. -/
def get_name_of_class (clazz : JVMClass) (class_index : Int) :
    Except Err (List Nat) := do
  let e₁ ← pyGet clazz.constant_pool (class_index - 1)
  let ni ← e₁.nameIndexKey
  let e₂ ← pyGet clazz.constant_pool ((ni : Int) - 1)
  e₂.decodeBytesKey

/-- `get_name_of_member(clazz, name_and_type_index)` (lines 30–31): textually
the same chain as `get_name_of_class`. -/
def get_name_of_member (clazz : JVMClass) (name_and_type_index : Int) :
    Except Err (List Nat) :=
  get_name_of_class clazz name_and_type_index

/-- The scan loop of `from_bsm` (lines 40–43): the first attribute whose
`_name` equals `b'BootstrapMethods'` is used; its
`['info']['bootstrap_methods'][index]` is returned (`index` is already known
non-negative, so the subscript is a plain lookup, `IndexError` when out of
range; a non-BootstrapMethods payload under that name would lack the dict key,
a `KeyError`).  If no attribute matches, `RuntimeError` (line 43). -/
def from_bsm_scan (index : Int) : List Attribute → Except Err BootstrapMethod
  | [] => .error .bsmNotFound
  | a :: rest =>
    if a.name = bytesOf "BootstrapMethods" then
      match a.info with
      | .bootstrapMethods _ ms =>
        match ms.get? index.toNat with
        | some m => .ok m
        | none => .error .indexError
      | _ => .error .keyError
    else from_bsm_scan index rest

/-- `from_bsm(clazz, index)` (lines 37–43): assert `index >= 0`, assert the
attributes are parsed (both asserts carry the same message), then scan. -/
def from_bsm (clazz : JVMClass) (index : Int) : Except Err BootstrapMethod :=
  if index < 0 then .error .assertNonNegativeBsmIndex
  else
    match clazz.attributes with
    | none => .error .assertNonNegativeBsmIndex
    | some attrs => from_bsm_scan index attrs

/-- One bootstrap method of the loop in `parse_attribute_info_BootstrapMethods`
(lines 87–94): ref, argument count, then that many 16-bit arguments. -/
def parseBsmMethod (s : List Nat) : Except Err (BootstrapMethod × List Nat) := do
  let (ref, s) ← parse_i2 s
  let (nargs, s) ← parse_i2 s
  let (args, s) ← parseCount parse_i2 nargs s
  .ok (⟨ref, nargs, args⟩, s)

/-- `parse_attribute_info_BootstrapMethods` (lines 83–96).  Like every
sub-parser it returns only the parsed dict; bytes left unread in its private
`BytesIO` are discarded. -/
def parse_attribute_info_BootstrapMethods (s : List Nat) : Except Err AttrInfo := do
  let (num, s) ← parse_i2 s
  let (ms, _) ← parseCount parseBsmMethod num s
  .ok (.bootstrapMethods num ms)

/-- `parse_attribute_info_SourceFile` (lines 98–101). -/
def parse_attribute_info_SourceFile (s : List Nat) : Except Err AttrInfo := do
  let (i, _) ← parse_i2 s
  .ok (.sourceFile i)

/-- One record of the `parse_attribute_info_InnerClasses` loop
(lines 107–113). -/
def parseInnerClass (s : List Nat) : Except Err (InnerClassRec × List Nat) := do
  let (a, s) ← parse_i2 s
  let (b, s) ← parse_i2 s
  let (c, s) ← parse_i2 s
  let (d, s) ← parse_i2 s
  .ok (⟨a, b, c, d⟩, s)

/-- `parse_attribute_info_InnerClasses` (lines 103–115). -/
def parse_attribute_info_InnerClasses (s : List Nat) : Except Err AttrInfo := do
  let (num, s) ← parse_i2 s
  let (cs, _) ← parseCount parseInnerClass num s
  .ok (.innerClasses num cs)

/-- One record of the `parse_attribute_info_LineNumberTable` loop
(lines 121–125). -/
def parseLineEntry (s : List Nat) : Except Err (LineEntry × List Nat) := do
  let (pc, s) ← parse_i2 s
  let (ln, s) ← parse_i2 s
  .ok (⟨pc, ln⟩, s)

/-- `parse_attribute_info_LineNumberTable` (lines 117–127). -/
def parse_attribute_info_LineNumberTable (s : List Nat) : Except Err AttrInfo := do
  let (len, s) ← parse_i2 s
  let (tbl, _) ← parseCount parseLineEntry len s
  .ok (.lineNumberTable len tbl)

/-- The body of `parse_attribute_info_Code` (lines 129–157), abstracted over
the parser used for the nested attribute list (the recursive knot is tied in
`parse_attributes_fuel` below).  The exception-table loop
`for i in range(exception_table_length): raise ...` raises on its first
iteration, i.e. exactly when the count is non-zero. -/
def codeGo (pAttrs : Nat → List Nat → Except Err (List Attribute × List Nat))
    (s : List Nat) : Except Err AttrInfo := do
  let (max_stack, s) ← parse_i2 s
  let (max_locals, s) ← parse_i2 s
  let (code_length, s) ← parse_i4 s
  let (code, s) := readRaw code_length s
  let (exception_table_length, s) ← parse_i2 s
  if exception_table_length ≠ 0 then .error .notImplementedNoExceptionTables
  else do
    let (attributes_count, s) ← parse_i2 s
    let (attrs, _) ← pAttrs attributes_count s
    .ok (.code max_stack max_locals code attrs)

/-- The body of `parse_attribute_info` (lines 66–81), abstracted over the Code
sub-parser.  The `AttributeInfoName(attr_name)` conversion raises `ValueError`
for a name outside the five members, before the `match` — its `case _` branch
is dead code; the five-way dispatch is the if-chain below. -/
def infoGo (pCode : List Nat → Except Err AttrInfo)
    (attr_name info_bytes : List Nat) : Except Err AttrInfo :=
  if attr_name = bytesOf "BootstrapMethods" then
    parse_attribute_info_BootstrapMethods info_bytes
  else if attr_name = bytesOf "SourceFile" then
    parse_attribute_info_SourceFile info_bytes
  else if attr_name = bytesOf "InnerClasses" then
    parse_attribute_info_InnerClasses info_bytes
  else if attr_name = bytesOf "Code" then
    pCode info_bytes
  else if attr_name = bytesOf "LineNumberTable" then
    parse_attribute_info_LineNumberTable info_bytes
  else .error .valueError

/-- The loop of `parse_attributes` (lines 48–64), abstracted over the payload
parser: for each attribute read `attribute_name_index` (16-bit), resolve it
through `from_cp` to the `_name` bytes, read the 32-bit length, carve the
payload with a raw `f.read` (short when the stream is short), parse the
payload, and append in declaration order. -/
def attrsLoop (clazz : JVMClass)
    (pInfo : List Nat → List Nat → Except Err AttrInfo) :
    Nat → List Nat → Except Err (List Attribute × List Nat)
  | 0, s => .ok ([], s)
  | count + 1, s => do
    let (ni, s) ← parse_i2 s
    let e ← from_cp clazz (ni : Int)
    let nm ← e.attrNameBytes
    let (len, s) ← parse_i4 s
    let (info_bytes, s) := readRaw len s
    let info ← pInfo nm info_bytes
    let (rest, s') ← attrsLoop clazz pInfo count s
    .ok (.mk ni nm info :: rest, s')

/-- The mutually recursive knot `parse_attributes` → `parse_attribute_info` →
`parse_attribute_info_Code` → `parse_attributes`, indexed by fuel.  The Python
recursion needs no fuel: each nested attribute list lives inside a payload
buffer strictly smaller than the stream it was carved from, so any fuel
exceeding the stream length behaves identically to the unbounded original
(level 0 is only reached past that depth and yields the artificial
`outOfFuel`). -/
def parse_attributes_fuel (clazz : JVMClass) :
    Nat → Nat → List Nat → Except Err (List Attribute × List Nat)
  | 0, _, _ => .error .outOfFuel
  | fuel + 1, count, s =>
    attrsLoop clazz (infoGo (codeGo (parse_attributes_fuel clazz fuel))) count s

/-- `parse_attributes(clazz, f, count)` (lines 48–64) at a given fuel level:
the loop itself, parsing payloads with the sub-parsers at the same level. -/
def parse_attributes (clazz : JVMClass) (fuel count : Nat) (s : List Nat) :
    Except Err (List Attribute × List Nat) :=
  attrsLoop clazz (infoGo (codeGo (parse_attributes_fuel clazz fuel))) count s

/-- `parse_attribute_info(clazz, attr_name, info_bytes)` (lines 66–81) at a
given fuel level. -/
def parse_attribute_info (clazz : JVMClass) (fuel : Nat)
    (attr_name info_bytes : List Nat) : Except Err AttrInfo :=
  infoGo (codeGo (parse_attributes_fuel clazz fuel)) attr_name info_bytes

/-- `parse_attribute_info_Code(clazz, f)` (lines 129–157) at a given fuel
level. -/
def parse_attribute_info_Code (clazz : JVMClass) (fuel : Nat) (s : List Nat) :
    Except Err AttrInfo :=
  codeGo (parse_attributes_fuel clazz fuel) s

/-- `parse_interfaces(f, interfaces_count)` (lines 213–217): the loop body
raises on its first iteration, so any non-zero count fails; a zero count
yields the empty list. -/
def parse_interfaces (interfaces_count : Nat) : Except Err (List Nat) :=
  match interfaces_count with
  | 0 => .ok []
  | _ + 1 => .error .notImplementedNoInterfaces

/-- `parse_fields(f, interfaces_count)` (lines 219–223): a verbatim copy of
`parse_interfaces`, including the error message `"We do not support
interfaces"` (the Python literal has an apostrophe) — NOT a fields-specific
message. -/
def parse_fields (fields_count : Nat) : Except Err (List Nat) :=
  match fields_count with
  | 0 => .ok []
  | _ + 1 => .error .notImplementedNoInterfaces

/-- One iteration of the methods loop of `parse_class_file` (lines 250–262). -/
def parseMethod (clazz : JVMClass) (fuel : Nat) (s : List Nat) :
    Except Err (Method × List Nat) := do
  let (af, s) ← parse_i2 s
  let (ni, s) ← parse_i2 s
  let (di, s) ← parse_i2 s
  let (ac, s) ← parse_i2 s
  let (attrs, s) ← parse_attributes clazz fuel ac s
  .ok ({ access_flags := parse_flags af METHOD_ACCESS_FLAGS,
         name_index := ni, descriptor_index := di, attributes := attrs }, s)

/-- `parse_class_file` (lines 225–268) on the full byte contents of the file.
The Python magic check compares `hex(parse_i4(f))` with the string
`'0xcafebabe'`, which holds exactly when the 32-bit value is `0xCAFEBABE`.
Trailing bytes after the top-level attributes are ignored (the `with` block
simply returns).  The recursion fuel `length + 1` exceeds any possible
attribute nesting depth, so it is never exhausted on any input. -/
def parse_class_file (s₀ : List Nat) : Except Err JVMClass := do
  let fuel := s₀.length + 1
  let (magic, s) ← parse_i4 s₀
  if magic ≠ 0xCAFEBABE then .error .invalidMagic
  else do
    let (v_minor, s) ← parse_i2 s
    let (v_major, s) ← parse_i2 s
    let (cp_count, s) ← parse_i2 s
    let (constant_pool, s) ← parse_constant_pool cp_count s
    let (afRaw, s) ← parse_i2 s
    let access_flags := parse_flags afRaw CLASS_ACCESS_FLAGS
    let (this_class, s) ← parse_i2 s
    let (super_class, s) ← parse_i2 s
    let (interfaces_count, s) ← parse_i2 s
    let _ ← parse_interfaces interfaces_count
    let (fields_count, s) ← parse_i2 s
    let _ ← parse_fields fields_count
    let clazz : JVMClass :=
      ⟨(v_major, v_minor), constant_pool, none, none, access_flags,
        this_class, super_class⟩
    let (methods_count, s) ← parse_i2 s
    let (methods, s) ← parseCount (parseMethod clazz fuel) methods_count s
    let (attributes_count, s) ← parse_i2 s
    let (attributes, _) ← parse_attributes clazz fuel attributes_count s
    .ok { clazz with methods := some methods, attributes := some attributes }

/-! ## Concrete inputs and classes used by counterexamples and witnesses -/

/-- The ASCII bytes of `"SourceFile"`. -/
def sfBytes : List Nat := [83, 111, 117, 114, 99, 101, 70, 105, 108, 101]

/-- A well-formed minimal class file: magic, version 0.0, pool
`[Utf8 "Main", Class → 1]` (count field 3), no flags, `this_class = 2`,
no interfaces, fields, methods or attributes. -/
def c1bytes : List Nat :=
  [0xCA, 0xFE, 0xBA, 0xBE, 0, 0, 0, 0, 0, 3,
   1, 0, 4, 77, 97, 105, 110,
   7, 0, 1,
   0, 0, 0, 2, 0, 0,
   0, 0, 0, 0, 0, 0, 0, 0]

/-- The class `c1bytes` decodes to. -/
def c1clazz : JVMClass :=
  ⟨(0, 0), [.utf8 [77, 97, 105, 110], .classref 1], some [], some [], [], 2, 0⟩

/-- A class file up to (and including) the `attribute_name_index` of its
single top-level attribute: magic, version 0.0, pool `[Utf8 "SourceFile"]`
(count field 2), no flags, no interfaces/fields/methods, one attribute with
name index 1.  The declared 32-bit payload length and the payload itself are
appended by the theorem using it. -/
def c2head : List Nat :=
  [0xCA, 0xFE, 0xBA, 0xBE, 0, 0, 0, 0, 0, 2,
   1, 0, 10, 83, 111, 117, 114, 99, 101, 70, 105, 108, 101,
   0, 0, 0, 0, 0, 0,
   0, 0, 0, 0, 0, 0,
   0, 1,
   0, 1]

/-- The class `c2head ++ enc4 100 ++ [0, 1]` decodes to: the truncated
100-byte payload was read short (2 bytes) and the SourceFile sub-parser
succeeded on it. -/
def c2clazz : JVMClass :=
  ⟨(0, 0), [.utf8 sfBytes], some [], some [.mk 1 sfBytes (.sourceFile 1)], [], 0, 0⟩

/-- A class-file prefix ending at a non-zero interfaces count: magic, version
0.0, empty pool (count field 1), no flags, interfaces count 1. -/
def c7iface : List Nat :=
  [0xCA, 0xFE, 0xBA, 0xBE, 0, 0, 0, 0, 0, 1,
   0, 0, 0, 0, 0, 0, 0, 1]

/-- A class-file prefix ending at a non-zero fields count: as `c7iface` but
with interfaces count 0 and fields count 1. -/
def c7fields : List Nat :=
  [0xCA, 0xFE, 0xBA, 0xBE, 0, 0, 0, 0, 0, 1,
   0, 0, 0, 0, 0, 0, 0, 0, 0, 1]

/-- A completed class whose single top-level attribute is a BootstrapMethods
attribute with exactly one method; used to instantiate universally quantified
theorems at a concrete input. -/
def demoClazz : JVMClass :=
  ⟨(0, 0), [.utf8 [77, 97, 105, 110], .classref 1], some [],
    some [.mk 9 (bytesOf "BootstrapMethods") (.bootstrapMethods 1 [⟨7, 0, []⟩])],
    [], 2, 0⟩

/-- A completed class whose pool holds the single Utf8 entry `"SourceFile"`. -/
def demoSfClazz : JVMClass :=
  ⟨(0, 0), [.utf8 sfBytes], some [], some [], [], 0, 0⟩

/-! ## Helper lemmas -/

theorem pyGet_out_of_range {α : Type} (l : List α) (i : Int)
    (h : i < -(l.length : Int) ∨ (l.length : Int) ≤ i) :
    pyGet l i = .error .indexError := by
  unfold pyGet
  rcases h with h | h
  · have hi : i < 0 := by
      have : (0 : Int) ≤ l.length := Int.ofNat_nonneg _
      omega
    rw [if_pos hi]
    have : ¬ (0 : Int) ≤ i + l.length := by omega
    simp only [this, if_false]
  · have hi : ¬ i < 0 := by
      have : (0 : Int) ≤ l.length := Int.ofNat_nonneg _
      omega
    rw [if_neg hi]
    have h0 : (0 : Int) ≤ i := by omega
    rw [if_pos h0]
    have : l.get? i.toNat = none := by
      rw [List.get?_eq_none]
      omega
    rw [this]

theorem parse_cp_entry_unsupported (tag : Nat) (rest : List Nat)
    (h : supportedTag tag = false) :
    parse_cp_entry (tag :: rest) = .error (.unsupportedConstantTag tag) := by
  simp only [supportedTag, decide_eq_false_iff_not, not_or] at h
  obtain ⟨h10, h9, h7, h12, h1, h8, h18, h15, h4, h3⟩ := h
  simp only [parse_cp_entry, parse_i1_cons, except_bind_ok]
  rw [if_neg h10, if_neg h7, if_neg h12, if_neg h1, if_neg h9, if_neg h8,
    if_neg h18, if_neg h15, if_neg h4, if_neg h3]

theorem parseCount_encodeCpList (es : List CpInfo) (rest : List Nat) :
    parseCount parse_cp_entry es.length (encodeCpList es ++ rest) =
      .ok (es, rest) := by
  induction es generalizing rest with
  | nil => simp [encodeCpList, parseCount]
  | cons e es ih =>
    have henc : encodeCpList (e :: es) ++ rest =
        encodeCp e ++ (encodeCpList es ++ rest) := by
      simp [encodeCpList, List.append_assoc]
    simp only [List.length_cons, parseCount, henc, parse_cp_entry_encode,
      except_bind_ok, ih]

theorem parseCount_cp_error (tag : Nat) (htag : supportedTag tag = false)
    (pre : List CpInfo) :
    ∀ (n : Nat) (rest : List Nat), pre.length < n →
      parseCount parse_cp_entry n (encodeCpList pre ++ tag :: rest) =
        .error (.unsupportedConstantTag tag) := by
  induction pre with
  | nil =>
    intro n rest hn
    obtain ⟨m, rfl⟩ : ∃ m, n = m + 1 := ⟨n - 1, by omega⟩
    simp [encodeCpList, parseCount, parse_cp_entry_unsupported tag rest htag]
  | cons e pre ih =>
    intro n rest hn
    obtain ⟨m, rfl⟩ : ∃ m, n = m + 1 := ⟨n - 1, by omega⟩
    have henc : encodeCpList (e :: pre) ++ tag :: rest =
        encodeCp e ++ (encodeCpList pre ++ tag :: rest) := by
      simp [encodeCpList, List.append_assoc]
    have hm : pre.length < m := by simp at hn; omega
    simp only [parseCount, henc, parse_cp_entry_encode, except_bind_ok,
      ih m rest hm, except_bind_err]

/-! ## Claim theorems -/

/-- C5: For every 16-bit value `v` and every ordered flag table, `parse_flags`
is a pure function returning exactly the names whose mask bits intersect `v`,
listed in table order; in particular `v = 0x0000` yields the empty list, and
`0x0011` against `[("PUBLIC", 0x0001), ("FINAL", 0x0010)]` yields
`["PUBLIC", "FINAL"]` (and `0x0001` yields `["PUBLIC"]`). -/
theorem parse_flags_c5 :
    (∀ (v : Nat) (table : List (String × Nat)) (name : String),
        name ∈ parse_flags v table ↔
          ∃ mask, (name, mask) ∈ table ∧ v &&& mask ≠ 0)
    ∧ (∀ (v : Nat) (table : List (String × Nat)),
        (parse_flags v table).Sublist (table.map Prod.fst))
    ∧ (∀ table : List (String × Nat), parse_flags 0 table = [])
    ∧ parse_flags 0x0011 [("PUBLIC", 0x0001), ("FINAL", 0x0010)] =
        ["PUBLIC", "FINAL"]
    ∧ parse_flags 0x0001 [("PUBLIC", 0x0001), ("FINAL", 0x0010)] = ["PUBLIC"]
    ∧ parse_flags 0x0000 [("PUBLIC", 0x0001), ("FINAL", 0x0010)] = [] := by
  refine ⟨?_, ?_, ?_, by decide, by decide, by decide⟩
  · intro v table name
    simp only [parse_flags, List.mem_map, List.mem_filter, bne_iff_ne, ne_eq]
    constructor
    · rintro ⟨⟨n, m⟩, ⟨hmem, hbit⟩, rfl⟩
      exact ⟨m, hmem, hbit⟩
    · rintro ⟨m, hmem, hbit⟩
      exact ⟨(name, m), ⟨hmem, hbit⟩, rfl⟩
  · intro v table
    exact (List.filter_sublist table).map Prod.fst
  · intro table
    simp [parse_flags, List.filter_eq_nil_iff]

/-- C9: On every decoded class, `from_cp(i)` for `1 ≤ i ≤ N-1` (the pool
holding `N-1` entries) returns the i-th entry in declaration order (1-based);
`from_cp(0)` and every negative index fail with the assertion the spec calls
`BadIndex`. -/
theorem from_cp_c9 :
    (∀ (clazz : JVMClass) (i : Int),
        1 ≤ i → i ≤ clazz.constant_pool.length →
        ∃ e, from_cp clazz i = .ok e ∧
          clazz.constant_pool.get? (i.toNat - 1) = some e)
    ∧ (∀ (clazz : JVMClass) (i : Int), i ≤ 0 →
        from_cp clazz i = .error .assertPositiveCpIndex) := by
  constructor
  · intro clazz i h1 h2
    have hlt : i.toNat - 1 < clazz.constant_pool.length := by omega
    refine ⟨clazz.constant_pool.get ⟨i.toNat - 1, hlt⟩, ?_, List.get?_eq_get hlt⟩
    unfold from_cp
    rw [if_pos (by omega : (0 : Int) < i), List.get?_eq_get hlt]
  · intro clazz i h
    unfold from_cp
    rw [if_neg (by omega : ¬ (0 : Int) < i)]

/-- C9 witness: a pool of two entries — index 1 returns the first entry,
index 0 hits the assertion. -/
theorem from_cp_c9_witness :
    (∃ e, from_cp c1clazz 1 = .ok e ∧
        c1clazz.constant_pool.get? ((1 : Int).toNat - 1) = some e)
    ∧ from_cp c1clazz 0 = .error .assertPositiveCpIndex :=
  ⟨from_cp_c9.1 c1clazz 1 (by decide) (by decide),
   from_cp_c9.2 c1clazz 0 (by decide)⟩

/-- C7 (the claim is right, the code has a copy-paste slip): any non-zero
interfaces count aborts the decode with the `NotImplementedError` whose
message names interfaces, regardless of the bytes that follow; any non-zero
fields count aborts too, but `parse_fields` (line 222) raises the very same
interfaces-message error instead of a fields-specific one — the spec promises
`UnsupportedFeature("fields")`, which the code never produces. -/
theorem interfaces_fields_c7 :
    (∀ rest : List Nat,
        parse_class_file (c7iface ++ rest) = .error .notImplementedNoInterfaces)
    ∧ (∀ rest : List Nat,
        parse_class_file (c7fields ++ rest) = .error .notImplementedNoInterfaces)
    ∧ (∀ n : Nat, parse_interfaces (n + 1) = .error .notImplementedNoInterfaces)
    ∧ (∀ n : Nat, parse_fields (n + 1) = .error .notImplementedNoInterfaces) :=
  ⟨fun _ => rfl, fun _ => rfl, fun _ => rfl, fun _ => rfl⟩

/-- C3: a pool count field of value `K ≥ 1` followed by `K-1` well-formed
entries decodes to exactly those `K-1` entries, in declaration order (the
round-trip through the entry encoding), and every successful pool decode of a
count `K` yields exactly `K-1` entries. -/
theorem constant_pool_c3 :
    (∀ (count : Nat) (s : List Nat) (es : List CpInfo) (r : List Nat),
        parse_constant_pool count s = .ok (es, r) → es.length = count - 1)
    ∧ (∀ (es : List CpInfo) (rest : List Nat),
        parse_constant_pool (es.length + 1) (encodeCpList es ++ rest) =
          .ok (es, rest)) := by
  constructor
  · intro count s es r h
    exact parseCount_length parse_cp_entry (count - 1) s es r h
  · intro es rest
    unfold parse_constant_pool
    simpa using parseCount_encodeCpList es rest

/-- C3 witness: a two-entry pool (count field 3) decodes to its two entries
in order. -/
theorem constant_pool_c3_witness :
    ([CpInfo.classref 1, CpInfo.string 2].length = 3 - 1)
    ∧ parse_constant_pool
        ([CpInfo.classref 1, CpInfo.string 2].length + 1)
        (encodeCpList [CpInfo.classref 1, CpInfo.string 2] ++ [9, 9]) =
        .ok ([CpInfo.classref 1, CpInfo.string 2], [9, 9]) :=
  ⟨constant_pool_c3.1 3 (encodeCpList [CpInfo.classref 1, CpInfo.string 2])
      [CpInfo.classref 1, CpInfo.string 2] []
      (by exact constant_pool_c3.2 [CpInfo.classref 1, CpInfo.string 2] []),
   constant_pool_c3.2 [CpInfo.classref 1, CpInfo.string 2] [9, 9]⟩

/-- C4: a constant-pool entry whose tag byte is outside the supported set
aborts the entry parse — and with it the whole pool decode — with the error
carrying that tag value; no partial pool is returned (the result is the
error, not a list). -/
theorem unsupported_tag_c4 :
    (∀ (tag : Nat) (rest : List Nat), supportedTag tag = false →
        parse_cp_entry (tag :: rest) = .error (.unsupportedConstantTag tag))
    ∧ (∀ (pre : List CpInfo) (tag : Nat) (rest : List Nat) (count : Nat),
        pre.length + 1 < count → supportedTag tag = false →
        parse_constant_pool count (encodeCpList pre ++ tag :: rest) =
          .error (.unsupportedConstantTag tag)) := by
  refine ⟨parse_cp_entry_unsupported, ?_⟩
  intro pre tag rest count hc htag
  unfold parse_constant_pool
  exact parseCount_cp_error tag htag pre (count - 1) rest (by omega)

/-- C4 witness: tag 2 is unsupported — the single-entry parse and a pool
decode reaching it (after one well-formed Class entry) both fail carrying
tag 2. -/
theorem unsupported_tag_c4_witness :
    parse_cp_entry [2] = .error (.unsupportedConstantTag 2)
    ∧ parse_constant_pool 3 (encodeCpList [CpInfo.classref 1] ++ [2]) =
        .error (.unsupportedConstantTag 2) :=
  ⟨unsupported_tag_c4.1 2 [] (by decide),
   unsupported_tag_c4.2 [CpInfo.classref 1] 2 [] 3 (by decide) (by decide)⟩

/-- C6: for every Code attribute payload, a non-zero 16-bit exception-table
count makes the Code sub-parser fail with the error the spec calls
`UnsupportedFeature("exception_table")` — never silently skipped — while a
zero count decodes (here with an empty nested attribute list, the trailing
`[0, 0, 0, 0]` encoding a zero exception-table count and a zero attribute
count). -/
theorem code_exception_table_c6 :
    (∀ (clazz : JVMClass) (fuel ms ml : Nat) (code : List Nat) (etl : Nat)
        (rest : List Nat), etl ≠ 0 →
        parse_attribute_info_Code clazz fuel
          (enc2 ms ++ enc2 ml ++ enc4 code.length ++ code ++ enc2 etl ++ rest) =
          .error .notImplementedNoExceptionTables)
    ∧ (∀ (clazz : JVMClass) (fuel ms ml : Nat) (code : List Nat),
        parse_attribute_info_Code clazz (fuel + 1)
          (enc2 ms ++ enc2 ml ++ enc4 code.length ++ code ++ [0, 0, 0, 0]) =
          .ok (.code ms ml code [])) := by
  constructor
  · intro clazz fuel ms ml code etl rest hetl
    simp only [parse_attribute_info_Code, codeGo, List.append_assoc,
      parse_i2_enc2, except_bind_ok, parse_i4_enc4, readRaw, List.take_left,
      List.drop_left]
    simp [hetl]
  · intro clazz fuel ms ml code
    simp only [parse_attribute_info_Code, codeGo, List.append_assoc,
      parse_i2_enc2, except_bind_ok, parse_i4_enc4, readRaw, List.take_left,
      List.drop_left]
    simp [parse_i2, parse_attributes_fuel, attrsLoop]

/-- C6 witness: concrete instances of both conjuncts (exception-table count 1
fails; count 0 with an empty code array and no nested attributes decodes). -/
theorem code_exception_table_c6_witness :
    parse_attribute_info_Code c1clazz 0
      (enc2 0 ++ enc2 0 ++ enc4 (List.length ([] : List Nat)) ++ [] ++
        enc2 1 ++ []) = .error .notImplementedNoExceptionTables
    ∧ parse_attribute_info_Code c1clazz 1
        (enc2 7 ++ enc2 9 ++ enc4 (List.length ([] : List Nat)) ++ [] ++
          [0, 0, 0, 0]) = .ok (.code 7 9 [] []) :=
  ⟨code_exception_table_c6.1 c1clazz 0 0 0 [] 1 [] (by decide),
   code_exception_table_c6.2 c1clazz 0 7 9 []⟩

/-- The scan of `from_bsm` ignores every leading attribute whose `_name` is
not `b'BootstrapMethods'`. -/
theorem from_bsm_scan_skip (index : Int) (pre : List Attribute)
    (hpre : ∀ a ∈ pre, a.name ≠ bytesOf "BootstrapMethods")
    (tail : List Attribute) :
    from_bsm_scan index (pre ++ tail) = from_bsm_scan index tail := by
  induction pre with
  | nil => rfl
  | cons a pre ih =>
    have ha : a.name ≠ bytesOf "BootstrapMethods" := hpre a (by simp)
    simp only [List.cons_append, from_bsm_scan, if_neg ha]
    exact ih (fun b hb => hpre b (by simp [hb]))

/-- C10: `from_bsm` indexes the bootstrap-method list 0-based (unlike the
1-based pool): on a class whose attributes contain a BootstrapMethods
attribute with at least one method — the first such attribute in declaration
order being the one used — index 0 returns its first method, while every
negative index trips the non-negativity assertion. -/
theorem from_bsm_c10 :
    (∀ (clazz : JVMClass) (pre post : List Attribute) (ani n : Nat)
        (m : BootstrapMethod) (ms : List BootstrapMethod),
        clazz.attributes = some (pre ++
          .mk ani (bytesOf "BootstrapMethods") (.bootstrapMethods n (m :: ms))
            :: post) →
        (∀ a ∈ pre, a.name ≠ bytesOf "BootstrapMethods") →
        from_bsm clazz 0 = .ok m)
    ∧ (∀ (clazz : JVMClass) (i : Int), i < 0 →
        from_bsm clazz i = .error .assertNonNegativeBsmIndex) := by
  constructor
  · intro clazz pre post ani n m ms hattrs hpre
    unfold from_bsm
    rw [if_neg (by omega : ¬ (0 : Int) < 0), hattrs]
    show from_bsm_scan 0 (pre ++
      .mk ani (bytesOf "BootstrapMethods") (.bootstrapMethods n (m :: ms))
        :: post) = .ok m
    rw [from_bsm_scan_skip 0 pre hpre]
    simp [from_bsm_scan, Attribute.name, Attribute.info]
  · intro clazz i h
    unfold from_bsm
    rw [if_pos h]

/-- C10 witness: on `demoClazz` (one BootstrapMethods attribute, one method)
index 0 returns that method and index -1 is rejected. -/
theorem from_bsm_c10_witness :
    from_bsm demoClazz 0 = .ok ⟨7, 0, []⟩
    ∧ from_bsm demoClazz (-1) = .error .assertNonNegativeBsmIndex :=
  ⟨from_bsm_c10.1 demoClazz []
      [] 9 1 ⟨7, 0, []⟩ [] (by rfl) (fun a ha => absurd ha (List.not_mem_nil a)),
   from_bsm_c10.2 demoClazz (-1) (by decide)⟩

/-- C8: each attribute payload is handed to the sub-parser as its own cursor
over exactly the `L` carved bytes — the parsed `info` is a function of the
payload alone, the sub-parser cannot see the subsequent input, a sub-parse
consuming fewer than `L` bytes still succeeds (trailing payload bytes are
silently unread), and the outer cursor resumes exactly `L` bytes past the
payload start in every case. -/
theorem attribute_cursor_c8 (clazz : JVMClass) (fuel count ni L : Nat)
    (payload rest : List Nat) (e : CpInfo) (nm : List Nat)
    (hcp : from_cp clazz (ni : Int) = .ok e)
    (hnm : e.attrNameBytes = .ok nm)
    (hL : payload.length = L) :
    parse_attributes clazz fuel (count + 1)
        (enc2 ni ++ enc4 L ++ payload ++ rest) =
      match parse_attribute_info clazz fuel nm payload with
      | .ok info =>
          (parse_attributes clazz fuel count rest).map
            (fun p => (.mk ni nm info :: p.1, p.2))
      | .error err => .error err := by
  subst hL
  simp only [parse_attributes, parse_attribute_info, attrsLoop,
    List.append_assoc, parse_i2_enc2, except_bind_ok, hcp, hnm, parse_i4_enc4,
    readRaw, List.take_left, List.drop_left]
  cases hinfo : infoGo (codeGo (parse_attributes_fuel clazz fuel)) nm payload with
  | error err => simp
  | ok info =>
    simp only [except_bind_ok]
    cases hrest : attrsLoop clazz
        (infoGo (codeGo (parse_attributes_fuel clazz fuel))) count rest with
    | error err => simp [Except.map]
    | ok p => simp [Except.map]

/-- C8 witness: a SourceFile attribute with declared length 3 whose
sub-parser consumes only 2 of the 3 payload bytes — the decode succeeds, the
extra payload byte 55 is silently unread, and the outer cursor resumes
exactly at the following bytes `[7, 7]`. -/
theorem attribute_cursor_c8_witness :
    parse_attributes demoSfClazz 1 1 (enc2 1 ++ enc4 3 ++ [0, 1, 55] ++ [7, 7]) =
      .ok ([.mk 1 sfBytes (.sourceFile 1)], [7, 7]) :=
  (attribute_cursor_c8 demoSfClazz 1 0 1 3 [0, 1, 55] [7, 7]
      (.utf8 sfBytes) sfBytes rfl rfl rfl).trans (by rfl)

/-- C1 counterexample: on the completed class decoded from `c1bytes` (whose
pool is `[Utf8 "Main", Class → 1]`), `get_name_of_class` at the non-positive
index 0 does NOT fail — Python negative indexing reads the LAST pool entry
(the Class entry) and the chain succeeds, returning the name `"Main"`
(bytes `[77, 97, 105, 110]`). -/
theorem get_name_class_c1_cex :
    parse_class_file c1bytes = .ok c1clazz
    ∧ get_name_of_class c1clazz 0 = .ok [77, 97, 105, 110] :=
  ⟨rfl, rfl⟩

/-- C1 as amended: `resolve_class_name` fails (with the index error the spec
calls `BadIndex`) when `class_index` falls outside Python's index range for
the pool — `class_index ≤ -N` or `class_index > N` for a pool of `N` entries —
and a successful result always comes from a chain
`class_index → name_index → Utf8 entry`; but a `class_index ≤ 0` within the
negative range indexes from the end of the pool and can return a name. -/
theorem get_name_class_c1_range :
    (∀ (clazz : JVMClass) (ci : Int),
        ci ≤ -(clazz.constant_pool.length : Int) ∨
          (clazz.constant_pool.length : Int) < ci →
        get_name_of_class clazz ci = .error .indexError)
    ∧ (∀ (clazz : JVMClass) (ci : Int) (bs : List Nat),
        get_name_of_class clazz ci = .ok bs →
        ∃ e₁ ni, pyGet clazz.constant_pool (ci - 1) = .ok e₁ ∧
          e₁.nameIndexKey = .ok ni ∧
          pyGet clazz.constant_pool ((ni : Int) - 1) = .ok (.utf8 bs)) := by
  constructor
  · intro clazz ci h
    have hout : pyGet clazz.constant_pool (ci - 1) = .error .indexError := by
      apply pyGet_out_of_range
      rcases h with h | h
      · exact Or.inl (by omega)
      · exact Or.inr (by omega)
    simp only [get_name_of_class, hout, except_bind_err]
  · intro clazz ci bs h
    simp only [get_name_of_class] at h
    cases h₁ : pyGet clazz.constant_pool (ci - 1) with
    | error e => rw [h₁] at h; simp at h
    | ok e₁ =>
      rw [h₁] at h
      simp only [except_bind_ok] at h
      cases h₂ : e₁.nameIndexKey with
      | error e => rw [h₂] at h; simp at h
      | ok ni =>
        rw [h₂] at h
        simp only [except_bind_ok] at h
        cases h₃ : pyGet clazz.constant_pool ((ni : Int) - 1) with
        | error e => rw [h₃] at h; simp at h
        | ok e₂ =>
          rw [h₃] at h
          simp only [except_bind_ok] at h
          refine ⟨e₁, ni, rfl, h₂, ?_⟩
          cases e₂ <;> simp [CpInfo.decodeBytesKey] at h
          subst h
          exact h₃

/-- C1 amended witness: index 5 on the two-entry pool of `c1clazz` is out of
range and fails; the success at index 2 factors through the
Class → Utf8 chain. -/
theorem get_name_class_c1_range_witness :
    get_name_of_class c1clazz 5 = .error .indexError
    ∧ ∃ e₁ ni, pyGet c1clazz.constant_pool ((2 : Int) - 1) = .ok e₁ ∧
        e₁.nameIndexKey = .ok ni ∧
        pyGet c1clazz.constant_pool ((ni : Int) - 1) =
          .ok (.utf8 [77, 97, 105, 110]) :=
  ⟨get_name_class_c1_range.1 c1clazz 5 (by right; decide),
   get_name_class_c1_range.2 c1clazz 2 [77, 97, 105, 110] (by rfl)⟩

/-- C2 counterexample: a stream that ends two bytes into an attribute payload
of declared length 100 decodes SUCCESSFULLY — `f.read(100)` silently returns
the 2 remaining bytes, the SourceFile sub-parser needs only those 2, and the
outer loop has nothing left to read — so a truncated declared field does NOT
always fail with `TruncatedInput`. -/
theorem truncated_attr_c2_cex :
    parse_class_file (c2head ++ enc4 100 ++ [0, 1]) = .ok c2clazz := rfl

/-- C2 as amended: truncating a fixed-width multi-byte field mid-stream fails
with `TruncatedInput` (the primitive readers fail on every short stream, and
e.g. a stream too short for the 32-bit magic or supplying one byte of the
16-bit minor version fails the whole decode with `TruncatedInput`); a
length-prefixed raw byte sequence with fewer bytes remaining than declared is
instead read short without error, and the decode can then complete
successfully (see the counterexample). -/
theorem truncated_fixed_c2 :
    parse_i1 [] = .error .truncatedInput
    ∧ (∀ s : List Nat, s.length < 2 → parse_i2 s = .error .truncatedInput)
    ∧ (∀ s : List Nat, s.length < 4 → parse_i4 s = .error .truncatedInput)
    ∧ (∀ s : List Nat, s.length < 4 → parse_f4 s = .error .truncatedInput)
    ∧ (∀ s : List Nat, s.length < 4 →
        parse_class_file s = .error .truncatedInput)
    ∧ (∀ b : Nat, parse_class_file [0xCA, 0xFE, 0xBA, 0xBE, b] =
        .error .truncatedInput) := by
  refine ⟨rfl, ?_, ?_, ?_, ?_, fun b => rfl⟩
  · intro s h
    rcases s with _ | ⟨a, _ | ⟨b, tl⟩⟩ <;>
      first | rfl | (simp at h; omega)
  · intro s h
    rcases s with _ | ⟨a, _ | ⟨b, _ | ⟨c, _ | ⟨d, tl⟩⟩⟩⟩ <;>
      first | rfl | (simp at h; omega)
  · intro s h
    rcases s with _ | ⟨a, _ | ⟨b, _ | ⟨c, _ | ⟨d, tl⟩⟩⟩⟩ <;>
      first | rfl | (simp at h; omega)
  · intro s h
    rcases s with _ | ⟨a, _ | ⟨b, _ | ⟨c, _ | ⟨d, tl⟩⟩⟩⟩ <;>
      first | rfl | (simp at h; omega)

/-- C2 amended witness: concrete truncated fixed-width reads — one byte of a
16-bit field, three bytes of a 32-bit field, a three-byte class file. -/
theorem truncated_fixed_c2_witness :
    parse_i2 [7] = .error .truncatedInput
    ∧ parse_i4 [1, 2, 3] = .error .truncatedInput
    ∧ parse_f4 [] = .error .truncatedInput
    ∧ parse_class_file [0xCA, 0xFE, 0xBA] = .error .truncatedInput :=
  ⟨truncated_fixed_c2.2.1 [7] (by decide),
   truncated_fixed_c2.2.2.1 [1, 2, 3] (by decide),
   truncated_fixed_c2.2.2.2.1 [] (by decide),
   truncated_fixed_c2.2.2.2.2.1 [0xCA, 0xFE, 0xBA] (by decide)⟩

end Pava
